import Mathlib

/-!
Verification of the c-ray public API layer (src/src/lib/api/c-ray.c).

The file shallowly embeds the state manipulated by the API functions and the
functions themselves.  The struct layouts of `struct renderer`, `struct world`,
`struct mesh`, … live in headers that are not part of the sources at hand, so
the structures below carry exactly the fields that `c-ray.c` reads or writes,
following the data model of the specification (§3).  Calls into translation
units that are not part of the sources (the math library, the texture code,
the BVH builder, the tile quantizer, …) are modelled as parameters gathered in
the `ExtFns` structure: every theorem is universally quantified over them.

C `size_t` arithmetic is modelled explicitly: `usize` is the `(size_t)` cast
of a 64-bit signed index and `sub1_size` is the wrapping computation
`count - 1` that the bounds guards of `c-ray.c` perform.  Undefined behaviour
(an out-of-bounds array access after a guard that failed to reject) is
modelled by returning `none` from the outermost `Option`.
-/

/-- A C `float`, identified with its 32-bit representation.  The API layer
only ever copies floats around (all float arithmetic happens in translation
units outside the sources), so the representation is opaque here.  `memcmp`
on structures containing floats coincides with equality of representations. -/
structure Flt where
  bits : Nat
deriving DecidableEq

/-- A C `double`, identified with its 64-bit representation. -/
structure Dbl where
  bits : Nat
deriving DecidableEq

/-- The representation of `0.0` (all bits zero, which is exact for IEEE-754). -/
def f0 : Flt := ⟨0⟩

/-- Bit pattern of the IEEE-754 single `1.0f`. -/
def f1 : Flt := ⟨0x3F800000⟩

/-- Bit pattern of the IEEE-754 single `-1.0f`. -/
def fneg1 : Flt := ⟨0xBF800000⟩

/-- Bit pattern of the IEEE-754 single `80.0f`. -/
def f80 : Flt := ⟨0x42A00000⟩

/-- The representation of the C double `0.0`. -/
def d_zero : Dbl := ⟨0⟩

/-- `struct matrix4x4` of the vendored math library, and equally a
`float[4][4]` argument: a grid of floats.  The API layer copies such grids
verbatim (`mtx_convert`) and otherwise only hands them to the external
functions `mat_mul`/`mat_invert`, so the grid is kept as given. -/
structure Mtx where
  entries : List (List Flt)
deriving DecidableEq

/-- `mtx_convert` (c-ray.c:360) copies the sixteen entries of a row-major
`float[4][4]` into a `struct matrix4x4`; on the grid representation this is
the identity. -/
def mtx_convert (m : Mtx) : Mtx := m

/-- Opaque handle for a `struct bvh *` built by the (external) BVH builder. -/
structure BvhRef where
  id : Nat
deriving DecidableEq

/-- Opaque handle for a `const struct bsdfNode *` produced by the (external,
out-of-scope per spec §1) shading-node expression builder. -/
structure BsdfRef where
  id : Nat
deriving DecidableEq

/-- Opaque contents of a `struct cr_shader_node` description tree.  The node
trees themselves are out of scope (spec §1); claims only move them around. -/
structure ShaderDesc where
  id : Nat
deriving DecidableEq

/-- Opaque pixel storage of a `struct texture`. -/
structure TexData where
  id : Nat
deriving DecidableEq

/-- Opaque `struct render_tile` as produced by the external tile quantizer. -/
structure Tile where
  id : Nat
deriving DecidableEq

/-- Opaque remainder of a `struct instance` as produced by the external
constructors `new_mesh_instance` / `new_sphere_instance` (intersection
callbacks, object index, …). -/
structure InstPayload where
  id : Nat
deriving DecidableEq

/-- Opaque callback function pointer. -/
structure CallbackFn where
  id : Nat
deriving DecidableEq

/-- Opaque callback user-data pointer. -/
structure UserData where
  id : Nat
deriving DecidableEq

/-- Opaque `struct render_client` (network worker). -/
structure Client where
  id : Nat
deriving DecidableEq

/-- The size of `size_t`: 2^64. -/
def size_mod : Nat := 2 ^ 64

/-- The `(size_t)` cast of a signed 64-bit index (`cr_mesh`, `cr_instance`,
`cr_camera`, … are `int64_t`): reduction modulo 2^64. -/
def usize (i : Int) : Nat := (i % (size_mod : Int)).toNat

/-- The wrapping `size_t` computation `count - 1` performed by the bounds
guards in c-ray.c (e.g. line 275): for `count = 0` it wraps to `2^64 - 1`. -/
def sub1_size (count : Nat) : Nat := (count + size_mod - 1) % size_mod

/-- `struct cr_vector` / `struct vector`: three floats. -/
structure cr_vector where
  x : Flt := f0
  y : Flt := f0
  z : Flt := f0
deriving DecidableEq

/-- `struct cr_coord` / `struct coord`: two floats. -/
structure cr_coord where
  u : Flt := f0
  v : Flt := f0
deriving DecidableEq

/-- `struct cr_face` (c-ray.h:185).  `cr_mesh_bind_faces` reinterprets it as
`struct poly` byte-for-byte, so a single type serves for both. -/
structure cr_face where
  vertex_idx : List Int := []
  normal_idx : List Int := []
  texture_idx : List Int := []
  mat_idx : Nat := 0
  has_normals : Bool := false
deriving DecidableEq

/-- Modelled from the spec (§3, Mesh): `struct vertex_buffer` — positions,
normals and UVs, each an ordered sequence with independent lengths. -/
structure vertex_buffer where
  vertices : List cr_vector := []
  normals : List cr_vector := []
  texture_coords : List cr_coord := []
deriving DecidableEq

/-- Modelled from the spec (§3, Mesh): `struct mesh` as used by c-ray.c —
name, vertex buffer, polygon list and an owned nullable BVH pointer. -/
structure mesh where
  name : Option String := none
  vbuf : vertex_buffer := {}
  polygons : List cr_face := []
  bvh : Option BvhRef := none
deriving DecidableEq

/-- `struct sphere`: only the radius is set through the API. -/
structure sphere where
  radius : Flt := f0
deriving DecidableEq

/-- `struct transform` of the vendored math library: a forward matrix and its
precomputed inverse.  (`memcmp(&i->composite, &mtx, sizeof(mtx))` at
c-ray.c:377 compares the leading `A` field only.) -/
structure transform where
  A : Mtx := ⟨[]⟩
  Ainv : Mtx := ⟨[]⟩
deriving DecidableEq

/-- Modelled from the spec (§3, Instance): `struct instance` as used by
c-ray.c — composite transform, material-set binding index, and the opaque
payload created by the external instance constructors. -/
structure instance_t where
  composite : transform := {}
  bbuf_idx : Nat := 0
  payload : InstPayload := ⟨0⟩
deriving DecidableEq

/-- Euler angles (camera orientation): roll, pitch, yaw. -/
structure euler where
  roll : Flt := f0
  pitch : Flt := f0
  yaw : Flt := f0
deriving DecidableEq

/-- Modelled from the spec (§3, Camera): `struct camera` as used by c-ray.c —
pose, optics, resolution, time and the coordinate-convention flag. -/
structure camera where
  FOV : Flt := f0
  focus_distance : Flt := f0
  fstops : Flt := f0
  width : Int := 0
  height : Int := 0
  position : cr_vector := {}
  orientation : euler := {}
  time : Flt := f0
  look_at : cr_vector := {}
  forward : cr_vector := {}
  right : cr_vector := {}
  up : cr_vector := {}
  is_blender : Bool := false
deriving DecidableEq

/-- `default_camera` (c-ray.c:414). -/
def default_camera : camera := {
  FOV := f80
  focus_distance := f0
  fstops := f0
  width := 800
  height := 600
  look_at := { x := f0, y := f0, z := f1 }
  forward := { x := f0, y := f0, z := f1 }
  right := { x := f1, y := f0, z := f0 }
  up := { x := f0, y := f1, z := f0 }
  is_blender := false
}

/-- `struct bsdf_buffer`: parallel arrays of built BSDF nodes and of the
deep-copied descriptions they were built from. -/
structure bsdf_buffer where
  bsdfs : List BsdfRef := []
  descriptions : List (Option ShaderDesc) := []
deriving DecidableEq

/-- A BVH build task enqueued by `cr_mesh_finalize` (c-ray.c:308):
a private snapshot of the mesh plus its index in the mesh array
(`struct bvh_build_task_arg`, scene pointer left implicit). -/
structure BgTask where
  task_mesh : mesh := {}
  mesh_idx : Nat := 0
deriving DecidableEq

/-- Modelled from the spec (§3, Scene): `struct world` as used by c-ray.c —
the object tables, the top-level dirty flag, the (spec §4.2) scene-wide
spatial index, and the queue of pending background BVH builds standing for
the `bg_worker` thread pool. -/
structure world where
  meshes : List mesh := []
  spheres : List sphere := []
  instances : List instance_t := []
  cameras : List camera := []
  shader_buffers : List bsdf_buffer := []
  background : Option BsdfRef := none
  bg_desc : Option ShaderDesc := none
  asset_path : Option String := none
  use_blender_coordinates : Bool := false
  top_level_dirty : Bool := false
  top_level_bvh : Option BvhRef := none
  bg_queue : List BgTask := []
deriving DecidableEq

/-- `enum renderState` (renderer.h is not among the sources; the five states
are those of spec §3, RendererRunState). -/
inductive run_state where
  | r_idle
  | r_rendering
  | r_paused
  | r_exiting
  | r_finished
deriving DecidableEq

/-- Tile orderings (`enum tileOrder`), as matched in `cr_renderer_set_str_pref`. -/
inductive tile_order where
  | ro_normal
  | ro_top_to_bottom
  | ro_from_middle
  | ro_to_middle
  | ro_random
deriving DecidableEq

/-- Modelled from the spec (§3, Worker): a local render worker as used by
c-ray.c — the pause flag, the acknowledgement flag `in_pause_loop`, and the
per-worker sample counter. -/
structure worker where
  paused : Bool := false
  in_pause_loop : Bool := false
  totalSamples : Nat := 0
deriving DecidableEq

/-- Modelled from the spec (§3, TileSet): the tile array and its completion
counter (the mutex that guards them has no state of its own). -/
structure render_tile_set where
  tiles : List Tile := []
  finished : Nat := 0
deriving DecidableEq

/-- `struct texture` as used by c-ray.c: dimensions plus opaque pixel data. -/
structure tex where
  width : Nat := 0
  height : Nat := 0
  data : TexData := ⟨0⟩
deriving DecidableEq

/-- One registered callback slot (function pointer + user data). -/
structure callback_slot where
  fn : Option CallbackFn := none
  user_data : Option UserData := none
deriving DecidableEq

/-- `struct prefs` as used by c-ray.c. -/
structure prefs_t where
  threads : Nat := 0
  sampleCount : Nat := 0
  bounces : Nat := 0
  tileWidth : Nat := 0
  tileHeight : Nat := 0
  override_width : Nat := 0
  override_height : Nat := 0
  selected_camera : Nat := 0
  iterative : Bool := false
  blender_mode : Bool := false
  tileOrder : tile_order := .ro_normal
  node_list : Option String := none
deriving DecidableEq

/-- Modelled from the spec (§3, RendererRunState): the mutable render state
as used by c-ray.c — run state, workers, network clients, result buffer,
active tile set, finished-pass counter and the five callback slots. -/
structure renderer_state where
  s : run_state := .r_idle
  workers : List worker := []
  clients : List Client := []
  result_buf : Option tex := none
  current_set : Option render_tile_set := none
  finishedPasses : Nat := 0
  callbacks : List callback_slot := [{}, {}, {}, {}, {}]
deriving DecidableEq

/-- `struct renderer`: preferences, state, and the owned scene. -/
structure renderer where
  prefs : prefs_t := {}
  state : renderer_state := {}
  scene : world := {}
deriving DecidableEq

/-- `struct cr_scene_totals` (c-ray.h:155). -/
structure cr_scene_totals where
  meshes : Nat := 0
  spheres : Nat := 0
  instances : Nat := 0
  cameras : Nat := 0
deriving DecidableEq

/-- `enum cr_renderer_param` (c-ray.h:46). -/
inductive cr_renderer_param where
  | cr_renderer_threads
  | cr_renderer_samples
  | cr_renderer_bounces
  | cr_renderer_tile_width
  | cr_renderer_tile_height
  | cr_renderer_tile_order
  | cr_renderer_override_width
  | cr_renderer_override_height
  | cr_renderer_override_cam
  | cr_renderer_is_iterative
  | cr_renderer_asset_path
  | cr_renderer_node_list
  | cr_renderer_blender_mode
deriving DecidableEq

/-- `enum cr_camera_param` (c-ray.h:203). -/
inductive cr_camera_param where
  | cr_camera_fov
  | cr_camera_focus_distance
  | cr_camera_fstops
  | cr_camera_pose_x
  | cr_camera_pose_y
  | cr_camera_pose_z
  | cr_camera_pose_roll
  | cr_camera_pose_pitch
  | cr_camera_pose_yaw
  | cr_camera_time
  | cr_camera_res_x
  | cr_camera_res_y
  | cr_camera_blender_coord
deriving DecidableEq

/-- `enum cr_object_type` (c-ray.h:240). -/
inductive cr_object_type where
  | cr_object_mesh
  | cr_object_sphere
deriving DecidableEq

/-- The functions c-ray.c calls in translation units that are not among the
sources.  Every theorem below is universally quantified over this record, so
nothing is assumed about these functions beyond their types. -/
structure ExtFns where
  build_bsdf_node : world → Option ShaderDesc → BsdfRef
  newBackground : world → BsdfRef
  mat_mul : Mtx → Mtx → Mtx
  mat_invert : Mtx → Mtx
  new_mesh_instance : List mesh → Int → instance_t
  new_sphere_instance : List sphere → Int → instance_t
  build_mesh_bvh : mesh → Option BvhRef
  fresh_tex : Nat → Nat → TexData
  tex_clear : tex → tex
  tile_quantize : Int → Int → Nat → Nat → tile_order → List Tile
  cam_update_pose : camera → camera
  cam_recompute_optics : camera → camera
  rebuild_top : world → BvhRef
  vec_normalize : cr_vector → cr_vector
  clients_sync : renderer → List Client
  renderer_render : renderer → renderer
  renderer_start_interactive : renderer → renderer
  dtof : Dbl → Flt
  dtoi : Dbl → Int
  ftod : Flt → Dbl
  itod : Int → Dbl
  d_one : Dbl
  file_load : String → List Nat
  get_file_path : String → String
  parse : renderer → List Nat → renderer × Int

/-- `shader_deepcopy` (c-ray.c:722) recursively copies a description tree and
maps `NULL` to `NULL`.  `ShaderDesc` models the contents of a tree, for which
a deep copy is the identity (pointer identity is not modelled). -/
def shader_deepcopy (d : Option ShaderDesc) : Option ShaderDesc := d

/-- The loop of `cr_renderer_toggle_pause` (c-ray.c:171): flip the pause flag
of the first `n` workers. -/
def flip_first : Nat → List worker → List worker
  | _, [] => []
  | 0, ws => ws
  | Nat.succ n, w :: ws => { w with paused := !w.paused } :: flip_first n ws

/-- The loop at c-ray.c:891: zero the sample counter of the first `n`
workers. -/
def zero_first : Nat → List worker → List worker
  | _, [] => []
  | 0, ws => ws
  | Nat.succ n, w :: ws => { w with totalSamples := 0 } :: zero_first n ws

/-- `cr_renderer_toggle_pause` (c-ray.c:168).  The loop runs over
`prefs.threads` indices of the worker array; if that exceeds the array length
the C code reads out of bounds, modelled as `none`. -/
def cr_renderer_toggle_pause (r? : Option renderer) : Option renderer :=
  match r? with
  | none => none
  | some r =>
    if r.prefs.threads ≤ r.state.workers.length then
      some { r with state := { r.state with workers := flip_first r.prefs.threads r.state.workers } }
    else none

/-- Events of one `cr_renderer_restart_interactive` execution, in program
order: controller-side observations and mutations of the result buffer and
the tile set. -/
inductive REv where
  | toggle
  | observe (i : Nat)
  | buf_destroy
  | buf_alloc
  | tiles_free
  | tiles_swap
  | set_finished
  | set_passes
  | buf_clear
  | samples_reset
  | top_rebuild
deriving DecidableEq

/-- Structural mutations of the result buffer or the tile set, in the sense
of the claim: destroying/reallocating the buffer and freeing/replacing the
tile array (spec §5). -/
def REv.isStruct : REv → Bool
  | .buf_destroy => true
  | .buf_alloc => true
  | .tiles_free => true
  | .tiles_swap => true
  | _ => false

/-- The per-worker acknowledgement wait of c-ray.c:862-871.  Worker `i`'s
busy loop terminates either because `in_pause_loop` is (or becomes) set —
recorded as an `observe i` event — or because a concurrent state change
takes the renderer out of `r_rendering`, upon which the controller bails
out.  The oracle `acks` resolves this concurrent nondeterminism: `acks i`
states that the wait for worker `i` ends with an acknowledgement.  A worker
whose flag is already set is observed immediately, whatever the oracle. -/
def wait_go (acks : Nat → Bool) : Nat → List worker → List REv × Bool
  | _, [] => ([], true)
  | i, w :: rest =>
    if w.in_pause_loop || acks i then
      ((REv.observe i) :: (wait_go acks (i + 1) rest).1, (wait_go acks (i + 1) rest).2)
    else ([], false)

/-- Modelled from the spec: `update_toplevel_bvh` (datatypes/scene.c, not
among the sources).  Spec §4.2: lazy rebuild — the renderer rebuilds the
scene-wide index exactly when the dirty flag is set, clearing the flag. -/
def update_toplevel_bvh (E : ExtFns) (w : world) : world :=
  if w.top_level_dirty then
    { w with top_level_bvh := some (E.rebuild_top w), top_level_dirty := false }
  else w

/-- The common final block of `cr_renderer_restart_interactive`
(c-ray.c:886-900): set `finishedPasses` to 1, clear the result buffer, reset
the tile set's completion counter, zero the first `prefs.threads` worker
sample counters (out of bounds if that exceeds the worker count), and run
`update_toplevel_bvh`.  (`thread_pool_wait` only blocks; it mutates no
renderer state.) -/
def restart_tail (E : ExtFns) (r : renderer) : Option (renderer × List REv) :=
  match r.state.result_buf, r.state.current_set with
  | some buf, some cs =>
    if r.prefs.threads ≤ r.state.workers.length then
      some ({ r with
                state := { r.state with
                  finishedPasses := 1,
                  result_buf := some (E.tex_clear buf),
                  current_set := some { cs with finished := 0 },
                  workers := zero_first r.prefs.threads r.state.workers },
                scene := update_toplevel_bvh E r.scene },
            [REv.set_passes, REv.buf_clear, REv.set_finished, REv.samples_reset, REv.top_rebuild])
    else none
  | _, _ => none

/-- The resize branch of `cr_renderer_restart_interactive` (c-ray.c:853-885):
recompute the camera optics, pause all workers, wait for every worker's
acknowledgement (bailing out — unpausing and returning — if the renderer
leaves `r_rendering` meanwhile), then destroy and reallocate the result
buffer at the camera resolution, swap in a freshly quantized tile set with
its completion counter zeroed, and unpause. -/
def restart_resize (E : ExtFns) (acks : Nat → Bool) (r : renderer) (cam : camera) :
    Option (Option renderer × List REv) :=
  let cam' := E.cam_recompute_optics cam
  let r0 := { r with scene := { r.scene with cameras := r.scene.cameras.set r.prefs.selected_camera cam' } }
  match cr_renderer_toggle_pause (some r0) with
  | none => none
  | some r1 =>
    match wait_go acks 0 r1.state.workers with
    | (trW, false) =>
      match cr_renderer_toggle_pause (some r1) with
      | none => none
      | some r2 => some (some r2, REv.toggle :: trW ++ [REv.toggle])
    | (trW, true) =>
      let newbuf : tex := { width := usize cam'.width, height := usize cam'.height,
                            data := E.fresh_tex (usize cam'.width) (usize cam'.height) }
      let newtiles := E.tile_quantize cam'.width cam'.height r1.prefs.tileWidth r1.prefs.tileHeight r1.prefs.tileOrder
      let r2 := { r1 with state := { r1.state with
                    result_buf := some newbuf,
                    current_set := some { tiles := newtiles, finished := 0 } } }
      match cr_renderer_toggle_pause (some r2) with
      | none => none
      | some r3 =>
        (restart_tail E r3).map (fun p =>
          (some p.1, REv.toggle :: trW ++
            [REv.buf_destroy, REv.buf_alloc, REv.tiles_free, REv.tiles_swap, REv.set_finished, REv.toggle] ++ p.2))

/-- `cr_renderer_restart_interactive` (c-ray.c:845).  Returns the resulting
handle state and the list of events in program order; the outer `none`
models undefined behaviour (the unguarded `cameras.items[selected_camera]`
access, or a worker loop running past the array). -/
def cr_renderer_restart_interactive (E : ExtFns) (acks : Nat → Bool) (r? : Option renderer) :
    Option (Option renderer × List REv) :=
  match r? with
  | none => some (none, [])
  | some r =>
    if r.prefs.iterative = false then some (some r, []) else
    if r.state.workers.length = 0 then some (some r, []) else
    match r.state.result_buf with
    | none => some (some r, [])
    | some buf =>
      match r.state.current_set with
      | none => some (some r, [])
      | some _ =>
        match r.scene.cameras.get? r.prefs.selected_camera with
        | none => none
        | some cam =>
          if buf.width = usize cam.width ∧ buf.height = usize cam.height then
            (restart_tail E r).map (fun p => (some p.1, p.2))
          else
            restart_resize E acks r cam

/-- `cr_renderer_set_callback` (c-ray.c:60).  The enum argument is its C
integer value; values above `cr_cb_on_interactive_pass_finished` (= 4) are
rejected. -/
def cr_renderer_set_callback (r? : Option renderer) (t : Nat) (fn : Option CallbackFn)
    (ud : Option UserData) : Option renderer × Bool :=
  match r? with
  | none => (none, false)
  | some r =>
    if 4 < t then (some r, false)
    else (some { r with state := { r.state with
                  callbacks := r.state.callbacks.set t { fn := fn, user_data := ud } } }, true)

/-- `cr_renderer_set_num_pref` (c-ray.c:72).  `num` is the `uint64_t`
argument; `blender_mode` stores its truth value. -/
def cr_renderer_set_num_pref (r? : Option renderer) (p : cr_renderer_param) (num : Nat) :
    Option renderer × Bool :=
  match r? with
  | none => (none, false)
  | some r =>
    match p with
    | .cr_renderer_threads => (some { r with prefs := { r.prefs with threads := num } }, true)
    | .cr_renderer_samples => (some { r with prefs := { r.prefs with sampleCount := num } }, true)
    | .cr_renderer_bounces =>
      if 512 < num then (some r, false)
      else (some { r with prefs := { r.prefs with bounces := num } }, true)
    | .cr_renderer_tile_width => (some { r with prefs := { r.prefs with tileWidth := num } }, true)
    | .cr_renderer_tile_height => (some { r with prefs := { r.prefs with tileHeight := num } }, true)
    | .cr_renderer_override_width => (some { r with prefs := { r.prefs with override_width := num } }, true)
    | .cr_renderer_override_height => (some { r with prefs := { r.prefs with override_height := num } }, true)
    | .cr_renderer_override_cam =>
      if r.scene.cameras.length = 0 then (some r, false)
      else if r.scene.cameras.length ≤ num then (some r, false)
      else (some { r with prefs := { r.prefs with selected_camera := num } }, true)
    | .cr_renderer_is_iterative => (some { r with prefs := { r.prefs with iterative := true } }, true)
    | .cr_renderer_blender_mode => (some { r with prefs := { r.prefs with blender_mode := num ≠ 0 } }, true)
    | _ => (some r, false)

/-- `cr_renderer_set_str_pref` (c-ray.c:124).  `stringEquals`/`stringCopy`
(common/cr_string.c, not among the sources) are content comparison and
content copy of C strings, i.e. `String` equality and identity here. -/
def cr_renderer_set_str_pref (r? : Option renderer) (p : cr_renderer_param) (str : String) :
    Option renderer × Bool :=
  match r? with
  | none => (none, false)
  | some r =>
    match p with
    | .cr_renderer_tile_order =>
      let ord := if str = "random" then tile_order.ro_random
                 else if str = "topToBottom" then tile_order.ro_top_to_bottom
                 else if str = "fromMiddle" then tile_order.ro_from_middle
                 else if str = "toMiddle" then tile_order.ro_to_middle
                 else tile_order.ro_normal
      (some { r with prefs := { r.prefs with tileOrder := ord } }, true)
    | .cr_renderer_asset_path =>
      (some { r with scene := { r.scene with asset_path := some str } }, true)
    | .cr_renderer_node_list =>
      (some { r with prefs := { r.prefs with node_list := some str } }, true)
    | _ => (some r, false)

/-- `cr_renderer_stop` (c-ray.c:158): set the run state to `r_exiting`.  The
busy-wait that follows only observes concurrent state changes made by the
render thread; the call itself performs no further mutation. -/
def cr_renderer_stop (r? : Option renderer) : Option renderer :=
  match r? with
  | none => none
  | some r => some { r with state := { r.state with s := run_state.r_exiting } }

/-- `cr_renderer_get_str_pref` (c-ray.c:178). -/
def cr_renderer_get_str_pref (r? : Option renderer) (p : cr_renderer_param) : Option String :=
  match r? with
  | none => none
  | some r =>
    match p with
    | .cr_renderer_asset_path => r.scene.asset_path
    | _ => none

/-- `cr_renderer_get_num_pref` (c-ray.c:188). -/
def cr_renderer_get_num_pref (r? : Option renderer) (p : cr_renderer_param) : Nat :=
  match r? with
  | none => 0
  | some r =>
    match p with
    | .cr_renderer_threads => r.prefs.threads
    | .cr_renderer_samples => r.prefs.sampleCount
    | .cr_renderer_bounces => r.prefs.bounces
    | .cr_renderer_tile_width => r.prefs.tileWidth
    | .cr_renderer_tile_height => r.prefs.tileHeight
    | .cr_renderer_override_width => r.prefs.override_width
    | .cr_renderer_override_height => r.prefs.override_height
    | _ => 0

/-- `cr_renderer_scene_get` (c-ray.c:217).  The C function returns a pointer
into the renderer; the boolean records whether a non-NULL handle was
returned (the scene lives inside the renderer value here). -/
def cr_renderer_scene_get (r? : Option renderer) : Option renderer × Bool :=
  match r? with
  | none => (none, false)
  | some r =>
    if r.prefs.blender_mode then
      (some { r with scene := { r.scene with use_blender_coordinates := true } }, true)
    else (some r, true)

/-- `cr_renderer_render` (c-ray.c:821).  With a node list configured the
client list is refreshed from the network (`clients_sync`); with neither
clients nor local threads the call is a no-op; otherwise the external core
`renderer_render` runs. -/
def cr_renderer_render (E : ExtFns) (r? : Option renderer) : Option renderer :=
  match r? with
  | none => none
  | some r =>
    let r1 := match r.prefs.node_list with
      | some _ => { r with state := { r.state with clients := E.clients_sync r } }
      | none => r
    if r1.state.clients.length = 0 ∧ r1.prefs.threads = 0 then some r1
    else some (E.renderer_render r1)

/-- `cr_renderer_start_interactive` (c-ray.c:835). -/
def cr_renderer_start_interactive (E : ExtFns) (r? : Option renderer) : Option renderer :=
  match r? with
  | none => none
  | some r =>
    let r1 := { r with prefs := { r.prefs with iterative := true } }
    if r1.prefs.threads = 0 then some r1
    else some (E.renderer_start_interactive r1)

/-- `cr_renderer_get_result` (c-ray.c:902): the result-buffer pointer. -/
def cr_renderer_get_result (r? : Option renderer) : Option tex :=
  match r? with
  | none => none
  | some r => r.state.result_buf

/-- `cr_load_json` (c-ray.c:916).  File loading, path splitting and JSON
parsing happen in external translation units (`ExtFns`). -/
def cr_load_json (E : ExtFns) (r? : Option renderer) (file_path : Option String) :
    Option renderer × Bool :=
  match r?, file_path with
  | none, _ => (none, false)
  | some r, none => (some r, false)
  | some r, some path =>
    let bytes := E.file_load path
    if bytes.length = 0 then (some r, false)
    else
      let ap := E.get_file_path path
      let r1 := (cr_renderer_set_str_pref (some r) .cr_renderer_asset_path ap).1.getD r
      let pj := E.parse r1 bytes
      if pj.2 < 0 then (some pj.1, false) else (some pj.1, true)

/-- `cr_debug_dump_state` (c-ray.c:938): logging only, no mutation. -/
def cr_debug_dump_state (r? : Option renderer) : Option renderer :=
  match r? with
  | none => none
  | some r => some r

/-- `cr_destroy_renderer` (c-ray.c:406): `ASSERT(r)` aborts on a NULL handle
(modelled as `none`); otherwise the renderer is destroyed. -/
def cr_destroy_renderer (r? : Option renderer) : Option Unit :=
  match r? with
  | none => none
  | some _ => some ()

/-- `cr_scene_set_background` (c-ray.c:204). -/
def cr_scene_set_background (E : ExtFns) (s? : Option world) (desc : Option ShaderDesc) :
    Option world × Bool :=
  match s? with
  | none => (none, false)
  | some s =>
    let bg := match desc with
      | some d => E.build_bsdf_node s (some d)
      | none => E.newBackground s
    (some { s with background := some bg, bg_desc := shader_deepcopy desc }, true)

/-- `cr_get_scene_totals` (c-ray.c:225). -/
def cr_get_scene_totals (s? : Option world) : cr_scene_totals :=
  match s? with
  | none => {}
  | some s => { meshes := s.meshes.length, spheres := s.spheres.length,
                instances := s.instances.length, cameras := s.cameras.length }

/-- `cr_scene_add_sphere` (c-ray.c:236): append and return the new index. -/
def cr_scene_add_sphere (s? : Option world) (radius : Flt) : Option world × Int :=
  match s? with
  | none => (none, -1)
  | some s => (some { s with spheres := s.spheres ++ [{ radius := radius }] }, (s.spheres.length : Int))

/-- `bvh_build_task` (c-ray.c:248): run on the background queue with a
private mesh snapshot.  If `build_mesh_bvh` fails the task only logs and
frees its argument — no shared state is touched.  On success the mesh's BVH
pointer is swapped under the scene's write lock (the old BVH is destroyed
after the lock is released).  A stale snapshot index would be an
out-of-bounds access (`none`); it cannot occur since the mesh array only
grows. -/
def bvh_build_task (E : ExtFns) (w : world) (t : BgTask) : Option world :=
  match E.build_mesh_bvh t.task_mesh with
  | none => some w
  | some bvh =>
    match w.meshes.get? t.mesh_idx with
    | none => none
    | some m => some { w with meshes := w.meshes.set t.mesh_idx { m with bvh := some bvh } }

/-- `struct cr_vertex_buf_param` (c-ray.h:176).  Each C pointer/count pair is
modelled as the optional list of the `count` elements it designates (`none`
for a NULL pointer; a zero count gives the empty list). -/
structure cr_vertex_buf_param where
  vertices : Option (List cr_vector) := none
  normals : Option (List cr_vector) := none
  tex_coords : Option (List cr_coord) := none
deriving DecidableEq

/-- `cr_mesh_bind_vertex_buf` (c-ray.c:272): build a fresh `vertex_buffer`
from the parameters and assign it wholesale to the mesh (`m->vbuf = new`).
The bounds guard is the wrapping `(size_t)mesh > count - 1` of the source;
when it passes although the index is out of range (empty mesh array), the
subsequent element access is undefined behaviour (`none`). -/
def cr_mesh_bind_vertex_buf (s? : Option world) (mesh_i : Int) (buf : cr_vertex_buf_param) :
    Option (Option world) :=
  match s? with
  | none => some none
  | some scene =>
    if usize mesh_i > sub1_size scene.meshes.length then some (some scene)
    else
      match scene.meshes.get? (usize mesh_i) with
      | none => none
      | some m =>
        let new : vertex_buffer :=
          { vertices := buf.vertices.getD [],
            normals := buf.normals.getD [],
            texture_coords := buf.tex_coords.getD [] }
        some (some { scene with meshes := scene.meshes.set (usize mesh_i) { m with vbuf := new } })

/-- `cr_mesh_bind_faces` (c-ray.c:297): `poly_arr_add` each passed face onto
the mesh's polygon list (the list is appended to, not replaced). -/
def cr_mesh_bind_faces (s? : Option world) (mesh_i : Int) (faces : Option (List cr_face)) :
    Option (Option world) :=
  match s?, faces with
  | none, _ => some none
  | some scene, none => some (some scene)
  | some scene, some fs =>
    if usize mesh_i > sub1_size scene.meshes.length then some (some scene)
    else
      match scene.meshes.get? (usize mesh_i) with
      | none => none
      | some m =>
        some (some { scene with meshes := scene.meshes.set (usize mesh_i) { m with polygons := m.polygons ++ fs } })

/-- `cr_mesh_finalize` (c-ray.c:308): enqueue a BVH build task carrying a
snapshot of the mesh; the call returns immediately. -/
def cr_mesh_finalize (s? : Option world) (mesh_i : Int) : Option (Option world) :=
  match s? with
  | none => some none
  | some scene =>
    if usize mesh_i > sub1_size scene.meshes.length then some (some scene)
    else
      match scene.meshes.get? (usize mesh_i) with
      | none => none
      | some m =>
        some (some { scene with bg_queue := scene.bg_queue ++ [{ task_mesh := m, mesh_idx := usize mesh_i }] })

/-- `cr_scene_mesh_new` (c-ray.c:320): append an empty mesh (with the copied
name) under the write lock and return its index. -/
def cr_scene_mesh_new (s? : Option world) (name : Option String) : Option world × Int :=
  match s? with
  | none => (none, -1)
  | some scene =>
    (some { scene with meshes := scene.meshes ++ [{ name := name }] }, (scene.meshes.length : Int))

/-- The search loop of `cr_scene_get_mesh` (c-ray.c:334). -/
def find_mesh : Nat → List mesh → String → Int
  | _, [], _ => -1
  | i, m :: rest, n => if m.name = some n then (i : Int) else find_mesh (i + 1) rest n

/-- `cr_scene_get_mesh` (c-ray.c:331): first mesh with the given name, else -1. -/
def cr_scene_get_mesh (s? : Option world) (name : Option String) : Int :=
  match s?, name with
  | none, _ => -1
  | _, none => -1
  | some scene, some n => find_mesh 0 scene.meshes n

/-- `cr_instance_new` (c-ray.c:342): build the instance via the external
constructor for its kind, set the scene's top-level dirty flag, append.  The
`Nat` in the result counts the writes to `top_level_dirty` the call
performed; the `Int` is the returned instance index. -/
def cr_instance_new (E : ExtFns) (s? : Option world) (object : Int) (t : cr_object_type) :
    (Option world × Nat) × Int :=
  match s? with
  | none => ((none, 0), -1)
  | some scene =>
    let new := match t with
      | .cr_object_mesh => E.new_mesh_instance scene.meshes object
      | .cr_object_sphere => E.new_sphere_instance scene.spheres object
    ((some { scene with top_level_dirty := true, instances := scene.instances ++ [new] }, 1),
     (scene.instances.length : Int))

/-- `cr_instance_set_transform` (c-ray.c:371): if the converted matrix equals
the instance's current forward matrix (the `memcmp` against the leading
matrix of `composite`), return without any write; otherwise store the new
transform with a freshly computed inverse and set the dirty flag.  The `Nat`
counts the writes to `top_level_dirty`. -/
def cr_instance_set_transform (E : ExtFns) (s? : Option world) (inst : Int) (row_major : Mtx) :
    Option (Option world × Nat) :=
  match s? with
  | none => some (none, 0)
  | some scene =>
    if usize inst > sub1_size scene.instances.length then some (some scene, 0)
    else
      match scene.instances.get? (usize inst) with
      | none => none
      | some i =>
        let mtx := mtx_convert row_major
        if i.composite.A = mtx then some (some scene, 0)
        else
          some (some { scene with
            instances := scene.instances.set (usize inst)
              { i with composite := { A := mtx, Ainv := E.mat_invert mtx } },
            top_level_dirty := true }, 1)

/-- `cr_instance_transform` (c-ray.c:385): right-multiply the instance's
forward matrix by the converted argument, recompute the inverse, set the
dirty flag.  The `Nat` counts the writes to `top_level_dirty`. -/
def cr_instance_transform (E : ExtFns) (s? : Option world) (inst : Int) (row_major : Mtx) :
    Option (Option world × Nat) :=
  match s? with
  | none => some (none, 0)
  | some scene =>
    if usize inst > sub1_size scene.instances.length then some (some scene, 0)
    else
      match scene.instances.get? (usize inst) with
      | none => none
      | some i =>
        let mtx := mtx_convert row_major
        let A' := E.mat_mul i.composite.A mtx
        some (some { scene with
          instances := scene.instances.set (usize inst)
            { i with composite := { A := A', Ainv := E.mat_invert A' } },
          top_level_dirty := true }, 1)

/-- `cr_instance_bind_material_set` (c-ray.c:396). -/
def cr_instance_bind_material_set (s? : Option world) (inst set_i : Int) :
    Option (Option world × Bool) :=
  match s? with
  | none => some (none, false)
  | some scene =>
    if usize inst > sub1_size scene.instances.length then some (some scene, false)
    else if usize set_i > sub1_size scene.shader_buffers.length then some (some scene, false)
    else
      match scene.instances.get? (usize inst) with
      | none => none
      | some i =>
        some (some { scene with
          instances := scene.instances.set (usize inst) { i with bbuf_idx := usize set_i } }, true)

/-- `cr_camera_new` (c-ray.c:427): append `default_camera`, return its index. -/
def cr_camera_new (s? : Option world) : Option world × Int :=
  match s? with
  | none => (none, -1)
  | some scene =>
    (some { scene with cameras := scene.cameras ++ [default_camera] }, (scene.cameras.length : Int))

/-- The `switch` of `cr_camera_set_num_pref` (c-ray.c:438): every parameter
updates its camera field (double→float/int conversions are external) and
returns true, so the trailing `cam_update_pose` fall-through is unreachable
for the thirteen enum values. -/
def set_cam_param (E : ExtFns) (cam : camera) (p : cr_camera_param) (num : Dbl) : camera :=
  match p with
  | .cr_camera_fov => { cam with FOV := E.dtof num }
  | .cr_camera_focus_distance => { cam with focus_distance := E.dtof num }
  | .cr_camera_fstops => { cam with fstops := E.dtof num }
  | .cr_camera_pose_x => { cam with position := { cam.position with x := E.dtof num } }
  | .cr_camera_pose_y => { cam with position := { cam.position with y := E.dtof num } }
  | .cr_camera_pose_z => { cam with position := { cam.position with z := E.dtof num } }
  | .cr_camera_pose_roll => { cam with orientation := { cam.orientation with roll := E.dtof num } }
  | .cr_camera_pose_pitch => { cam with orientation := { cam.orientation with pitch := E.dtof num } }
  | .cr_camera_pose_yaw => { cam with orientation := { cam.orientation with yaw := E.dtof num } }
  | .cr_camera_time => { cam with time := E.dtof num }
  | .cr_camera_res_x => { cam with width := E.dtoi num }
  | .cr_camera_res_y => { cam with height := E.dtoi num }
  | .cr_camera_blender_coord =>
    let la : cr_vector := { x := f0, y := f0, z := fneg1 }
    { cam with look_at := la, forward := E.vec_normalize la,
               right := { x := f1, y := f0, z := f0 },
               up := { x := f0, y := fneg1, z := f0 },
               is_blender := true }

/-- `cr_camera_set_num_pref` (c-ray.c:433).  `c < 0 || !ext` is rejected
first; then the wrapping bounds guard; then the switch. -/
def cr_camera_set_num_pref (E : ExtFns) (s? : Option world) (c : Int) (p : cr_camera_param)
    (num : Dbl) : Option (Option world × Bool) :=
  if c < 0 ∨ s? = none then some (s?, false)
  else
    match s? with
    | none => some (none, false)
    | some scene =>
      if usize c > sub1_size scene.cameras.length then some (some scene, false)
      else
        match scene.cameras.get? (usize c) with
        | none => none
        | some cam =>
          some (some { scene with cameras := scene.cameras.set (usize c) (set_cam_param E cam p num) }, true)

/-- `cr_camera_get_num_pref` (c-ray.c:501). -/
def cr_camera_get_num_pref (E : ExtFns) (s? : Option world) (c : Int) (p : cr_camera_param) :
    Option Dbl :=
  if c < 0 ∨ s? = none then some d_zero
  else
    match s? with
    | none => some d_zero
    | some scene =>
      if usize c > sub1_size scene.cameras.length then some d_zero
      else
        match scene.cameras.get? (usize c) with
        | none => none
        | some cam =>
          some (match p with
            | .cr_camera_fov => E.ftod cam.FOV
            | .cr_camera_focus_distance => E.ftod cam.focus_distance
            | .cr_camera_fstops => E.ftod cam.fstops
            | .cr_camera_pose_x => E.ftod cam.position.x
            | .cr_camera_pose_y => E.ftod cam.position.y
            | .cr_camera_pose_z => E.ftod cam.position.z
            | .cr_camera_pose_roll => E.ftod cam.orientation.roll
            | .cr_camera_pose_pitch => E.ftod cam.orientation.pitch
            | .cr_camera_pose_yaw => E.ftod cam.orientation.yaw
            | .cr_camera_time => E.ftod cam.time
            | .cr_camera_res_x => E.itod cam.width
            | .cr_camera_res_y => E.itod cam.height
            | .cr_camera_blender_coord => if cam.is_blender then E.d_one else d_zero)

/-- `cr_camera_update` (c-ray.c:550): recompute pose and optics in place. -/
def cr_camera_update (E : ExtFns) (s? : Option world) (c : Int) : Option (Option world × Bool) :=
  if c < 0 ∨ s? = none then some (s?, false)
  else
    match s? with
    | none => some (none, false)
    | some scene =>
      if usize c > sub1_size scene.cameras.length then some (some scene, false)
      else
        match scene.cameras.get? (usize c) with
        | none => none
        | some cam =>
          some (some { scene with
            cameras := scene.cameras.set (usize c) (E.cam_recompute_optics (E.cam_update_pose cam)) }, true)

/-- `cr_camera_remove` (c-ray.c:560): an unimplemented stub — both arguments
are ignored and `false` is returned. -/
def cr_camera_remove (s? : Option world) (_c : Int) : Option world × Bool :=
  (s?, false)

/-- `cr_scene_new_material_set` (c-ray.c:569). -/
def cr_scene_new_material_set (s? : Option world) : Option world × Int :=
  match s? with
  | none => (none, -1)
  | some scene =>
    (some { scene with shader_buffers := scene.shader_buffers ++ [{}] },
     (scene.shader_buffers.length : Int))

/-- `cr_material_set_add` (c-ray.c:797): build the BSDF, append the deep
copy of the description and the node, return the node's index. -/
def cr_material_set_add (E : ExtFns) (s? : Option world) (set_i : Int) (desc : Option ShaderDesc) :
    Option (Option world × Int) :=
  match s? with
  | none => some (none, -1)
  | some s =>
    if usize set_i > sub1_size s.shader_buffers.length then some (some s, -1)
    else
      match s.shader_buffers.get? (usize set_i) with
      | none => none
      | some buf =>
        let node := E.build_bsdf_node s desc
        let buf' := { buf with descriptions := buf.descriptions ++ [shader_deepcopy desc],
                               bsdfs := buf.bsdfs ++ [node] }
        some (some { s with shader_buffers := s.shader_buffers.set (usize set_i) buf' },
              (buf.bsdfs.length : Int))

/-- `cr_material_update` (c-ray.c:808): replace the node and the stored
description at `mat`.  The bounds guard checks `mat` against the description
count only; the write to `bsdfs.items[mat]` is out of bounds (`none`) if the
node array is shorter. -/
def cr_material_update (E : ExtFns) (s? : Option world) (set_i mat : Int)
    (desc : Option ShaderDesc) : Option (Option world) :=
  match s? with
  | none => some none
  | some s =>
    if usize set_i > sub1_size s.shader_buffers.length then some (some s)
    else
      match s.shader_buffers.get? (usize set_i) with
      | none => none
      | some buf =>
        if usize mat > sub1_size buf.descriptions.length then some (some s)
        else if usize mat < buf.bsdfs.length ∧ usize mat < buf.descriptions.length then
          let buf' := { buf with bsdfs := buf.bsdfs.set (usize mat) (E.build_bsdf_node s desc),
                                 descriptions := buf.descriptions.set (usize mat) (shader_deepcopy desc) }
          some (some { s with shader_buffers := s.shader_buffers.set (usize set_i) buf' })
        else none

/-- A sample instantiation of the external functions, used only to evaluate
the development on concrete inputs. -/
def ext0 : ExtFns := {
  build_bsdf_node := fun _ _ => ⟨0⟩
  newBackground := fun _ => ⟨0⟩
  mat_mul := fun a b => ⟨a.entries ++ b.entries⟩
  mat_invert := fun a => ⟨a.entries.reverse⟩
  new_mesh_instance := fun _ _ => {}
  new_sphere_instance := fun _ _ => {}
  build_mesh_bvh := fun _ => none
  fresh_tex := fun _ _ => ⟨0⟩
  tex_clear := fun t => { t with data := ⟨t.data.id + 1⟩ }
  tile_quantize := fun _ _ _ _ _ => []
  cam_update_pose := fun c => c
  cam_recompute_optics := fun c => c
  rebuild_top := fun _ => ⟨7⟩
  vec_normalize := fun v => v
  clients_sync := fun _ => []
  renderer_render := fun r => r
  renderer_start_interactive := fun r => r
  dtof := fun d => ⟨d.bits⟩
  dtoi := fun d => (d.bits : Int)
  ftod := fun f => ⟨f.bits⟩
  itod := fun _ => ⟨0⟩
  d_one := ⟨1⟩
  file_load := fun _ => []
  get_file_path := fun s => s
  parse := fun r _ => (r, 0)
}

/-- An oracle under which every worker acknowledges the pause. -/
def acks0 : Nat → Bool := fun _ => true

/-- A concrete camera whose resolution is 100 by 100. -/
def cam100 : camera := { default_camera with width := 100, height := 100 }

/-- A concrete interactive renderer whose result buffer (800 by 600) does not
match its camera's resolution (100 by 100); one worker, already parked. -/
def rC1 : renderer := {
  prefs := { threads := 1, iterative := true, selected_camera := 0 }
  state := { s := .r_rendering,
             workers := [{ paused := false, in_pause_loop := true, totalSamples := 5 }],
             result_buf := some { width := 800, height := 600, data := ⟨3⟩ },
             current_set := some { tiles := [⟨0⟩, ⟨1⟩], finished := 2 },
             finishedPasses := 0 }
  scene := { cameras := [cam100], top_level_dirty := true }
}

/-- A concrete interactive renderer whose result buffer matches its camera's
resolution (800 by 600). -/
def rC4 : renderer := {
  prefs := { threads := 1, iterative := true, selected_camera := 0 }
  state := { s := .r_rendering,
             workers := [{ paused := false, in_pause_loop := true, totalSamples := 5 }],
             result_buf := some { width := 800, height := 600, data := ⟨3⟩ },
             current_set := some { tiles := [⟨0⟩, ⟨1⟩], finished := 2 },
             finishedPasses := 0 }
  scene := { cameras := [default_camera], top_level_dirty := true }
}

/-- A concrete face. -/
def faceA : cr_face := { vertex_idx := [0, 1, 2], mat_idx := 0 }

/-- Another concrete face. -/
def faceB : cr_face := { vertex_idx := [2, 3, 0], mat_idx := 1 }

/-- A scene holding one mesh that already has one polygon (`faceA`) and a
non-empty vertex buffer. -/
def wC2 : world := {
  meshes := [{ name := some "m",
               vbuf := { vertices := [{ x := f1, y := f0, z := f0 }] },
               polygons := [faceA] }]
}

/-- The scene with every object table empty. -/
def w_empty : world := {}

/-- A concrete 4x4 grid standing for a transform matrix. -/
def mtxA : Mtx := ⟨[[f1, f0, f0, f0], [f0, f1, f0, f0], [f0, f0, f1, f0], [f0, f0, f0, f1]]⟩

/-- Another concrete grid. -/
def mtxB : Mtx := ⟨[[f0, f1, f0, f0], [f1, f0, f0, f0], [f0, f0, f1, f0], [f0, f0, f0, f1]]⟩

/-- A scene holding one instance whose forward matrix is `mtxA` and whose
top-level dirty flag is clear. -/
def wC7 : world := {
  instances := [{ composite := { A := mtxA, Ainv := mtxA }, bbuf_idx := 0 }]
  top_level_dirty := false
}

/-- A scene holding one instance, for exercising transform composition. -/
def wC6 : world := {
  instances := [{ composite := { A := mtxA, Ainv := mtxA }, bbuf_idx := 0 }]
  top_level_dirty := false
}

/-- A mesh with no geometry, used as a build-task snapshot. -/
def meshC5 : mesh := { name := some "empty" }

/-- A scene with one mesh carrying an existing BVH. -/
def wC5 : world := { meshes := [{ name := some "empty", bvh := some ⟨42⟩ }] }

/-- A renderer with two workers in distinct flag states. -/
def rC9 : renderer := {
  prefs := { threads := 2 }
  state := { workers := [{ paused := false, in_pause_loop := true, totalSamples := 1 },
                         { paused := true, in_pause_loop := false, totalSamples := 2 }],
             clients := [⟨9⟩] }
}

/-- A plain default renderer. -/
def rC8 : renderer := {}

theorem usize_of_valid (i : Int) (h0 : 0 ≤ i) (h1 : i < (size_mod : Int)) : usize i = i.toNat := by
  unfold usize
  rw [Int.emod_eq_of_lt h0 h1]

theorem sub1_size_of_pos (c : Nat) (h1 : 0 < c) (h2 : c < size_mod) : sub1_size c = c - 1 := by
  unfold sub1_size
  have he : c + size_mod - 1 = (c - 1) + size_mod := by omega
  rw [he, Nat.add_mod_right, Nat.mod_eq_of_lt (by omega)]

theorem guard_le_of_valid (i : Int) (c : Nat) (h0 : 0 ≤ i) (hi : i.toNat < c)
    (hc : c < size_mod) : usize i ≤ sub1_size c := by
  have hlt : i < (size_mod : Int) := by
    have : (i.toNat : Int) = i := Int.toNat_of_nonneg h0
    omega
  rw [usize_of_valid i h0 hlt, sub1_size_of_pos c (by omega) hc]
  omega

theorem length_flip_first (n : Nat) (ws : List worker) : (flip_first n ws).length = ws.length := by
  induction ws generalizing n with
  | nil => cases n <;> rfl
  | cons w rest ih =>
    cases n with
    | zero => rfl
    | succ m => simp [flip_first, ih m]

theorem flip_first_flip_first (n : Nat) (ws : List worker) :
    flip_first n (flip_first n ws) = ws := by
  induction ws generalizing n with
  | nil => cases n <;> rfl
  | cons w rest ih =>
    cases n with
    | zero => rfl
    | succ m => simp [flip_first, ih m, Bool.not_not]

theorem flip_first_get_ge (n : Nat) (ws : List worker) (i : Nat) (h : n ≤ i) :
    (flip_first n ws).get? i = ws.get? i := by
  induction ws generalizing n i with
  | nil => cases n <;> rfl
  | cons w rest ih =>
    cases n with
    | zero => rfl
    | succ m =>
      cases i with
      | zero => omega
      | succ j => simpa [flip_first] using ih m j (by omega)

theorem flip_first_ipl (n : Nat) (ws : List worker) (i : Nat) :
    ((flip_first n ws).get? i).map worker.in_pause_loop = (ws.get? i).map worker.in_pause_loop := by
  induction ws generalizing n i with
  | nil => cases n <;> rfl
  | cons w rest ih =>
    cases n with
    | zero => rfl
    | succ m =>
      cases i with
      | zero => rfl
      | succ j => simpa [flip_first] using ih m j

theorem flip_first_samples (n : Nat) (ws : List worker) (i : Nat) :
    ((flip_first n ws).get? i).map worker.totalSamples = (ws.get? i).map worker.totalSamples := by
  induction ws generalizing n i with
  | nil => cases n <;> rfl
  | cons w rest ih =>
    cases n with
    | zero => rfl
    | succ m =>
      cases i with
      | zero => rfl
      | succ j => simpa [flip_first] using ih m j

theorem wait_go_obs (acks : Nat → Bool) (ws : List worker) :
    ∀ (i0 : Nat) (tr : List REv), wait_go acks i0 ws = (tr, true) →
      ∀ j, j < ws.length → REv.observe (i0 + j) ∈ tr := by
  induction ws with
  | nil => intro i0 tr _ j hj; simp at hj
  | cons w rest ih =>
    intro i0 tr h j hj
    by_cases hc : (w.in_pause_loop || acks i0) = true
    · rw [wait_go, if_pos hc] at h
      obtain ⟨htr, hb⟩ := Prod.mk.injEq .. ▸ h
      cases j with
      | zero => rw [← htr]; simp
      | succ k =>
        rw [← htr]
        have hrec : wait_go acks (i0 + 1) rest = ((wait_go acks (i0 + 1) rest).1, true) := by
          rw [← hb]
        have := ih (i0 + 1) (wait_go acks (i0 + 1) rest).1 hrec k (by simpa using hj)
        simp only [List.mem_cons]
        right
        have harith : i0 + 1 + k = i0 + (k + 1) := by omega
        rwa [harith] at this
    · rw [wait_go, if_neg hc] at h
      cases h

theorem wait_go_shape (acks : Nat → Bool) (ws : List worker) :
    ∀ (i0 : Nat) (e : REv), e ∈ (wait_go acks i0 ws).1 → ∃ i, e = REv.observe i := by
  induction ws with
  | nil => intro i0 e h; simp [wait_go] at h
  | cons w rest ih =>
    intro i0 e h
    by_cases hc : (w.in_pause_loop || acks i0) = true
    · rw [wait_go, if_pos hc] at h
      rcases List.mem_cons.mp h with h1 | h2
      · exact ⟨i0, h1⟩
      · exact ih (i0 + 1) e h2
    · rw [wait_go, if_neg hc] at h
      simp at h

theorem mem_pre_of_append_eq {α : Type} (A : List α) :
    ∀ (B pre post : List α) (e : α), A ++ B = pre ++ e :: post → e ∉ A →
      ∀ a ∈ A, a ∈ pre := by
  induction A with
  | nil => intro B pre post e _ _ a ha; simp at ha
  | cons x A' ih =>
    intro B pre post e h he a ha
    cases pre with
    | nil =>
      rw [List.cons_append, List.nil_append] at h
      injection h with h1 h2
      exact absurd (by rw [← h1]; exact List.mem_cons_self x A') he
    | cons p pre' =>
      rw [List.cons_append, List.cons_append] at h
      injection h with h1 h2
      rcases List.mem_cons.mp ha with h3 | h4
      · rw [h3, h1]; exact List.mem_cons_self p pre'
      · exact List.mem_cons.mpr (Or.inr (ih B pre' post e h2 (fun hx => he (List.mem_cons.mpr (Or.inr hx))) a h4))

theorem restart_resize_spec (E : ExtFns) (acks : Nat → Bool) (r : renderer) (cam : camera)
    (hth : r.prefs.threads ≤ r.state.workers.length) :
    ∃ out tr, restart_resize E acks r cam = some (out, tr) ∧
      ((∃ trW, tr = REv.toggle :: trW ++ [REv.toggle] ∧ ∀ e ∈ trW, ∃ i, e = REv.observe i)
       ∨ (∃ trW rest2, tr = (REv.toggle :: trW) ++ rest2 ∧
            (∀ e ∈ trW, ∃ i, e = REv.observe i) ∧
            ∀ j, j < r.state.workers.length → REv.observe j ∈ trW)) := by
  have hlen : (flip_first r.prefs.threads r.state.workers).length = r.state.workers.length :=
    length_flip_first _ _
  have hth1 : r.prefs.threads ≤ (flip_first r.prefs.threads r.state.workers).length := by
    rw [hlen]; exact hth
  rcases hwg : wait_go acks 0 (flip_first r.prefs.threads r.state.workers) with ⟨trW, b⟩
  have htrW : (wait_go acks 0 (flip_first r.prefs.threads r.state.workers)).1 = trW := by
    rw [hwg]
  simp only [restart_resize, cr_renderer_toggle_pause]
  rw [if_pos hth]
  dsimp only
  rw [hwg]
  cases b with
  | false =>
    rw [if_pos hth1]
    dsimp only
    exact ⟨_, _, rfl, Or.inl ⟨trW, rfl, fun e he => wait_go_shape acks _ 0 e (htrW ▸ he)⟩⟩
  | true =>
    dsimp only
    rw [if_pos hth1]
    dsimp only
    simp only [restart_tail]
    rw [if_pos (by rw [length_flip_first, hlen]; exact hth)]
    refine ⟨_, _, rfl, Or.inr ⟨trW,
      [REv.buf_destroy, REv.buf_alloc, REv.tiles_free, REv.tiles_swap, REv.set_finished, REv.toggle,
       REv.set_passes, REv.buf_clear, REv.set_finished, REv.samples_reset, REv.top_rebuild], ?_, ?_, ?_⟩⟩
    · simp [List.append_assoc]
    · intro e he
      exact wait_go_shape acks _ 0 e (htrW ▸ he)
    · intro j hj
      have := wait_go_obs acks (flip_first r.prefs.threads r.state.workers) 0 trW
        (by rw [hwg]) j (by rw [hlen]; exact hj)
      simpa using this

/-- Claim C1: for every execution of `cr_renderer_restart_interactive` on an
interactive renderer with workers, a result buffer and a tile set whose
camera resolution differs from the result buffer's size — and for every
resolution of the concurrent nondeterminism by the `acks` oracle — every
event that structurally mutates the result buffer or the tile set (destroy,
reallocate, tile-array free/replace) is preceded in the controller's program
order by an observation of every worker's acknowledgement flag. -/
theorem C1_quiescence_before_structural_mutation
    (E : ExtFns) (acks : Nat → Bool) (r : renderer) (buf : tex) (cs : render_tile_set)
    (cam : camera)
    (hit : r.prefs.iterative = true)
    (hwne : r.state.workers ≠ [])
    (hth : r.prefs.threads ≤ r.state.workers.length)
    (hbuf : r.state.result_buf = some buf)
    (hcs : r.state.current_set = some cs)
    (hcam : r.scene.cameras.get? r.prefs.selected_camera = some cam)
    (hres : ¬(buf.width = usize cam.width ∧ buf.height = usize cam.height)) :
    ∃ out tr, cr_renderer_restart_interactive E acks (some r) = some (out, tr) ∧
      ∀ pre e post, tr = pre ++ e :: post → e.isStruct = true →
        ∀ i, i < r.state.workers.length → REv.observe i ∈ pre := by
  obtain ⟨out, tr, heq, hchar⟩ := restart_resize_spec E acks r cam hth
  refine ⟨out, tr, ?_, ?_⟩
  · simp only [cr_renderer_restart_interactive, hit, hbuf, hcs, hcam]
    simp only [List.length_eq_zero, hwne, hres, if_false, Bool.true_eq_false, ite_false]
    exact heq
  · intro pre e post hdec hstruct i hi
    rcases hchar with ⟨trW, htr, hshape⟩ | ⟨trW, rest2, htr, hshape, hobs⟩
    · have hmem : e ∈ tr := by
        rw [hdec]
        exact List.mem_append.mpr (Or.inr (List.mem_cons_self e post))
      rw [htr] at hmem
      rcases List.mem_cons.mp hmem with h1 | h2
      · rw [h1] at hstruct; cases hstruct
      · rcases List.mem_append.mp h2 with hW | hT
        · obtain ⟨k, hk⟩ := hshape e hW
          rw [hk] at hstruct; cases hstruct
        · rcases List.mem_singleton.mp hT with h3
          rw [h3] at hstruct; cases hstruct
    · have hne : e ∉ (REv.toggle :: trW) := by
        intro hmem
        rcases List.mem_cons.mp hmem with h1 | hW
        · rw [h1] at hstruct; cases hstruct
        · obtain ⟨k, hk⟩ := hshape e hW
          rw [hk] at hstruct; cases hstruct
      rw [htr] at hdec
      have hpre := mem_pre_of_append_eq (REv.toggle :: trW) rest2 pre post e hdec hne
      exact hpre (REv.observe i) (List.mem_cons.mpr (Or.inr (hobs i hi)))

/-- Witness for C1 at a concrete renderer (one parked worker, result buffer
800 by 600, camera 100 by 100). -/
theorem C1_witness :
    ∃ out tr, cr_renderer_restart_interactive ext0 acks0 (some rC1) = some (out, tr) ∧
      ∀ pre e post, tr = pre ++ e :: post → e.isStruct = true →
        ∀ i, i < rC1.state.workers.length → REv.observe i ∈ pre :=
  C1_quiescence_before_structural_mutation ext0 acks0 rC1
    { width := 800, height := 600, data := ⟨3⟩ } { tiles := [⟨0⟩, ⟨1⟩], finished := 2 } cam100
    rfl (by decide) (by decide) rfl rfl rfl (by decide)

/-- Claim C4 (amended): when the selected camera's resolution equals the
result buffer's size, `cr_renderer_restart_interactive` clears the result
buffer, resets the tile set's completion counter to zero, resets the sample
counter of the first `prefs.threads` workers to zero, rebuilds the top-level
index if dirty — and, in addition to what the claim lists, sets the
finished-pass counter to 1.  Every other field of the renderer is
unchanged, and no pause, acknowledgement or structural buffer/tile-set event
occurs. -/
theorem C4_restart_same_resolution
    (E : ExtFns) (acks : Nat → Bool) (r : renderer) (buf : tex) (cs : render_tile_set)
    (cam : camera)
    (hit : r.prefs.iterative = true)
    (hwne : r.state.workers ≠ [])
    (hth : r.prefs.threads ≤ r.state.workers.length)
    (hbuf : r.state.result_buf = some buf)
    (hcs : r.state.current_set = some cs)
    (hcam : r.scene.cameras.get? r.prefs.selected_camera = some cam)
    (hres : buf.width = usize cam.width ∧ buf.height = usize cam.height) :
    cr_renderer_restart_interactive E acks (some r) = some (some
      { r with
          state := { r.state with
            finishedPasses := 1,
            result_buf := some (E.tex_clear buf),
            current_set := some { cs with finished := 0 },
            workers := zero_first r.prefs.threads r.state.workers },
          scene := update_toplevel_bvh E r.scene },
      [REv.set_passes, REv.buf_clear, REv.set_finished, REv.samples_reset, REv.top_rebuild]) := by
  simp only [cr_renderer_restart_interactive, hit, hbuf, hcs, hcam]
  simp only [List.length_eq_zero, hwne, Bool.true_eq_false, ite_false, if_false]
  rw [if_pos hres]
  simp only [restart_tail, hbuf, hcs]
  rw [if_pos hth]
  rfl

/-- Counterexample to claim C4 as stated: on a concrete renderer whose
finished-pass counter starts at 0, the equal-resolution restart changes it
to 1, so not every field outside the listed ones is unchanged. -/
theorem C4_counterexample :
    ((cr_renderer_restart_interactive ext0 acks0 (some rC4)).map
      (fun p => p.1.map (fun r' => r'.state.finishedPasses))) = some (some 1) ∧
    rC4.state.finishedPasses = 0 :=
  ⟨rfl, rfl⟩

/-- Witness for C4 at a concrete renderer whose buffer and camera agree on
800 by 600. -/
theorem C4_witness :
    cr_renderer_restart_interactive ext0 acks0 (some rC4) = some (some
      { rC4 with
          state := { rC4.state with
            finishedPasses := 1,
            result_buf := some (ext0.tex_clear { width := 800, height := 600, data := ⟨3⟩ }),
            current_set := some { tiles := [⟨0⟩, ⟨1⟩], finished := 0 },
            workers := zero_first rC4.prefs.threads rC4.state.workers },
          scene := update_toplevel_bvh ext0 rC4.scene },
      [REv.set_passes, REv.buf_clear, REv.set_finished, REv.samples_reset, REv.top_rebuild]) :=
  C4_restart_same_resolution ext0 acks0 rC4
    { width := 800, height := 600, data := ⟨3⟩ } { tiles := [⟨0⟩, ⟨1⟩], finished := 2 }
    default_camera rfl (by decide) (by decide) rfl rfl rfl (by decide)

/-- Claim C2 (amended): on a valid mesh index, `cr_mesh_bind_vertex_buf`
replaces the mesh's vertex/normal/UV buffers wholesale with exactly the
arrays passed (prior contents are irrelevant), but `cr_mesh_bind_faces`
appends the passed face array to the mesh's existing polygon list rather
than replacing it. -/
theorem C2_bind_buffer_semantics
    (scene : world) (m : mesh) (mi : Int) (buf : cr_vertex_buf_param) (fs : List cr_face)
    (h0 : 0 ≤ mi) (hm : scene.meshes.get? mi.toNat = some m)
    (hlen : scene.meshes.length < size_mod) :
    cr_mesh_bind_vertex_buf (some scene) mi buf = some (some { scene with
      meshes := scene.meshes.set mi.toNat { m with vbuf :=
        { vertices := buf.vertices.getD [],
          normals := buf.normals.getD [],
          texture_coords := buf.tex_coords.getD [] } } }) ∧
    cr_mesh_bind_faces (some scene) mi (some fs) = some (some { scene with
      meshes := scene.meshes.set mi.toNat { m with polygons := m.polygons ++ fs } }) := by
  have hidx : mi.toNat < scene.meshes.length := (List.get?_eq_some.mp hm).1
  have hmi : mi < (size_mod : Int) := by
    have h1 : (mi.toNat : Int) = mi := Int.toNat_of_nonneg h0
    omega
  have hu : usize mi = mi.toNat := usize_of_valid mi h0 hmi
  have hng : ¬(usize mi > sub1_size scene.meshes.length) :=
    Nat.not_lt.mpr (guard_le_of_valid mi scene.meshes.length h0 hidx hlen)
  constructor
  · simp only [cr_mesh_bind_vertex_buf]
    rw [if_neg hng, hu, hm]
  · simp only [cr_mesh_bind_faces]
    rw [if_neg hng, hu, hm]

/-- Counterexample to claim C2 as stated: binding the single face `faceB` to
a mesh that already holds `faceA` yields the polygon list `[faceA, faceB]`,
not the bound array `[faceB]`. -/
theorem C2_counterexample :
    ((cr_mesh_bind_faces (some wC2) 0 (some [faceB])).map
      (fun o => o.map (fun w => w.meshes.map mesh.polygons))) = some (some [[faceA, faceB]]) ∧
    [faceA, faceB] ≠ [faceB] :=
  ⟨rfl, by decide⟩

/-- Witness for C2 at the concrete scene `wC2`. -/
theorem C2_witness :
    cr_mesh_bind_vertex_buf (some wC2) 0 { vertices := some [{ x := f0, y := f1, z := f0 }] } =
      some (some { wC2 with meshes := wC2.meshes.set 0 { name := some "m", vbuf := { vertices := [{ x := f0, y := f1, z := f0 }] }, polygons := [faceA] } }) ∧
    cr_mesh_bind_faces (some wC2) 0 (some [faceB]) =
      some (some { wC2 with meshes := wC2.meshes.set 0 { name := some "m", vbuf := { vertices := [{ x := f1, y := f0, z := f0 }] }, polygons := [faceA, faceB] } }) :=
  C2_bind_buffer_semantics wC2
    { name := some "m", vbuf := { vertices := [{ x := f1, y := f0, z := f0 }] },
      polygons := [faceA] }
    0 { vertices := some [{ x := f0, y := f1, z := f0 }] } [faceB]
    (by decide) rfl (by decide)

/-- Claim C3: the bounds guards compute `count - 1` in `size_t`; on an empty
object table this wraps to `2^64 - 1`, so index 0 — though out of range — is
not rejected and the code goes on to access element 0 of the empty array
(undefined behaviour, `none`), instead of the no-op failure the claim (and
spec §7, `InvalidHandle`) requires. -/
theorem C3_empty_table_guard_underflow :
    sub1_size 0 = size_mod - 1 ∧
    cr_mesh_bind_vertex_buf (some w_empty) 0 {} = none ∧
    cr_instance_set_transform ext0 (some w_empty) 0 mtxA = none ∧
    cr_camera_set_num_pref ext0 (some w_empty) 0 .cr_camera_fov d_zero = none :=
  ⟨by decide, rfl, rfl, rfl⟩

/-- Claim C5: when BVH construction fails for a mesh, the build task swaps
nothing and leaves the scene — including the mesh's previous, possibly
absent, BVH pointer — exactly as it was.  (The task receives only the scene
pointer, so no renderer state, in particular no run state, is reachable from
it: the render is not aborted.) -/
theorem C5_build_failure_no_mutation (E : ExtFns) (w : world) (t : BgTask)
    (h : E.build_mesh_bvh t.task_mesh = none) :
    bvh_build_task E w t = some w := by
  simp [bvh_build_task, h]

/-- Witness for C5: under `ext0` every build fails, and the task leaves the
concrete scene `wC5` (whose mesh holds a previous BVH) unchanged. -/
theorem C5_witness :
    ext0.build_mesh_bvh meshC5 = none ∧
    bvh_build_task ext0 wC5 { task_mesh := meshC5, mesh_idx := 0 } = some wC5 :=
  ⟨rfl, C5_build_failure_no_mutation ext0 wC5 { task_mesh := meshC5, mesh_idx := 0 } rfl⟩

/-- Claim C6: applying `cr_instance_transform` with matrices `A` then `B` on
a valid instance leaves the composite forward matrix equal to the initial
matrix multiplied by `A` and then by `B`, with the precomputed inverse
recomputed after each call, and each call writes the scene's top-level dirty
flag exactly once. -/
theorem C6_transform_composes (E : ExtFns) (scene : world) (i : instance_t) (inst : Int)
    (A B : Mtx) (h0 : 0 ≤ inst) (hm : scene.instances.get? inst.toNat = some i)
    (hlen : scene.instances.length < size_mod) :
    ∃ w1 w2,
      cr_instance_transform E (some scene) inst A = some (some w1, 1) ∧
      w1.top_level_dirty = true ∧
      cr_instance_transform E (some w1) inst B = some (some w2, 1) ∧
      w2.top_level_dirty = true ∧
      w2.instances.get? inst.toNat =
        some { i with composite :=
          { A := E.mat_mul (E.mat_mul i.composite.A A) B,
            Ainv := E.mat_invert (E.mat_mul (E.mat_mul i.composite.A A) B) } } := by
  have hidx : inst.toNat < scene.instances.length := (List.get?_eq_some.mp hm).1
  have hmi : inst < (size_mod : Int) := by
    have h1 : (inst.toNat : Int) = inst := Int.toNat_of_nonneg h0
    omega
  have hu : usize inst = inst.toNat := usize_of_valid inst h0 hmi
  have hng : ¬(usize inst > sub1_size scene.instances.length) :=
    Nat.not_lt.mpr (guard_le_of_valid inst scene.instances.length h0 hidx hlen)
  have hget1 : (scene.instances.set inst.toNat { i with composite := { A := E.mat_mul i.composite.A A, Ainv := E.mat_invert (E.mat_mul i.composite.A A) } }).get? inst.toNat = some { i with composite := { A := E.mat_mul i.composite.A A, Ainv := E.mat_invert (E.mat_mul i.composite.A A) } } := by
    simp [List.get?_eq_getElem?, List.getElem?_set_self, hidx]
  have h1 : cr_instance_transform E (some scene) inst A = some (some { scene with instances := scene.instances.set inst.toNat { i with composite := { A := E.mat_mul i.composite.A A, Ainv := E.mat_invert (E.mat_mul i.composite.A A) } }, top_level_dirty := true }, 1) := by
    simp only [cr_instance_transform]
    rw [if_neg hng, hu, hm]
    rfl
  have h2 : cr_instance_transform E (some { scene with instances := scene.instances.set inst.toNat { i with composite := { A := E.mat_mul i.composite.A A, Ainv := E.mat_invert (E.mat_mul i.composite.A A) } }, top_level_dirty := true }) inst B = some (some { scene with instances := (scene.instances.set inst.toNat { i with composite := { A := E.mat_mul i.composite.A A, Ainv := E.mat_invert (E.mat_mul i.composite.A A) } }).set inst.toNat { i with composite := { A := E.mat_mul (E.mat_mul i.composite.A A) B, Ainv := E.mat_invert (E.mat_mul (E.mat_mul i.composite.A A) B) } }, top_level_dirty := true }, 1) := by
    simp only [cr_instance_transform]
    rw [if_neg (by simp only [List.length_set]; exact hng), hu, hget1]
    rfl
  have h3 : ((scene.instances.set inst.toNat { i with composite := { A := E.mat_mul i.composite.A A, Ainv := E.mat_invert (E.mat_mul i.composite.A A) } }).set inst.toNat { i with composite := { A := E.mat_mul (E.mat_mul i.composite.A A) B, Ainv := E.mat_invert (E.mat_mul (E.mat_mul i.composite.A A) B) } }).get? inst.toNat = some { i with composite := { A := E.mat_mul (E.mat_mul i.composite.A A) B, Ainv := E.mat_invert (E.mat_mul (E.mat_mul i.composite.A A) B) } } := by
    simp [List.get?_eq_getElem?, List.getElem?_set_self, List.length_set, hidx]
  exact ⟨_, _, h1, rfl, h2, rfl, h3⟩

/-- Witness for C6 at the concrete scene `wC6`, composing `mtxA` then `mtxB`. -/
theorem C6_witness :
    ∃ w1 w2,
      cr_instance_transform ext0 (some wC6) 0 mtxA = some (some w1, 1) ∧
      w1.top_level_dirty = true ∧
      cr_instance_transform ext0 (some w1) 0 mtxB = some (some w2, 1) ∧
      w2.top_level_dirty = true ∧
      w2.instances.get? (0 : Int).toNat =
        some ⟨⟨ext0.mat_mul (ext0.mat_mul mtxA mtxA) mtxB,
               ext0.mat_invert (ext0.mat_mul (ext0.mat_mul mtxA mtxA) mtxB)⟩, 0, ⟨0⟩⟩ :=
  C6_transform_composes ext0 wC6 ⟨⟨mtxA, mtxA⟩, 0, ⟨0⟩⟩ 0 mtxA mtxB (by decide) rfl (by decide)

/-- Claim C7 (amended): instance creation and every transform-composition
call on a valid instance set the scene's top-level dirty flag and perform no
rebuild (the top-level index value is untouched); a transform-setting call
does the same unless the supplied matrix equals the instance's current
forward matrix, in which case the call is a complete no-op and in particular
does not set the flag. -/
theorem C7_mutations_set_dirty_flag (E : ExtFns) (scene : world) (i : instance_t)
    (inst obj : Int) (ty : cr_object_type) (m : Mtx)
    (h0 : 0 ≤ inst) (hm : scene.instances.get? inst.toNat = some i)
    (hlen : scene.instances.length < size_mod) :
    (∃ w', cr_instance_new E (some scene) obj ty = ((some w', 1), (scene.instances.length : Int)) ∧
       w'.top_level_dirty = true ∧ w'.top_level_bvh = scene.top_level_bvh) ∧
    (i.composite.A ≠ mtx_convert m →
      ∃ w', cr_instance_set_transform E (some scene) inst m = some (some w', 1) ∧
        w'.top_level_dirty = true ∧ w'.top_level_bvh = scene.top_level_bvh) ∧
    (i.composite.A = mtx_convert m →
      cr_instance_set_transform E (some scene) inst m = some (some scene, 0)) ∧
    (∃ w', cr_instance_transform E (some scene) inst m = some (some w', 1) ∧
       w'.top_level_dirty = true ∧ w'.top_level_bvh = scene.top_level_bvh) := by
  have hidx : inst.toNat < scene.instances.length := (List.get?_eq_some.mp hm).1
  have hmi : inst < (size_mod : Int) := by
    have h1 : (inst.toNat : Int) = inst := Int.toNat_of_nonneg h0
    omega
  have hu : usize inst = inst.toNat := usize_of_valid inst h0 hmi
  have hng : ¬(usize inst > sub1_size scene.instances.length) :=
    Nat.not_lt.mpr (guard_le_of_valid inst scene.instances.length h0 hidx hlen)
  refine ⟨?_, ?_, ?_, ?_⟩
  · cases ty <;> exact ⟨_, rfl, rfl, rfl⟩
  · intro hne
    have hstep : cr_instance_set_transform E (some scene) inst m = some (some { scene with instances := scene.instances.set inst.toNat { i with composite := { A := mtx_convert m, Ainv := E.mat_invert (mtx_convert m) } }, top_level_dirty := true }, 1) := by
      simp only [cr_instance_set_transform]
      rw [if_neg hng, hu, hm]
      dsimp only
      rw [if_neg hne]
    exact ⟨_, hstep, rfl, rfl⟩
  · intro heq
    simp only [cr_instance_set_transform]
    rw [if_neg hng, hu, hm]
    dsimp only
    rw [if_pos heq]
  · have hstep : cr_instance_transform E (some scene) inst m = some (some { scene with instances := scene.instances.set inst.toNat { i with composite := { A := E.mat_mul i.composite.A (mtx_convert m), Ainv := E.mat_invert (E.mat_mul i.composite.A (mtx_convert m)) } }, top_level_dirty := true }, 1) := by
      simp only [cr_instance_transform]
      rw [if_neg hng, hu, hm]
    exact ⟨_, hstep, rfl, rfl⟩

/-- Counterexample to claim C7 as stated: `cr_instance_set_transform` with a
matrix equal to the instance's current forward matrix is a no-op on a valid
instance — the scene (and hence its clear dirty flag) is returned unchanged,
with zero writes to the flag. -/
theorem C7_counterexample :
    cr_instance_set_transform ext0 (some wC7) 0 mtxA = some (some wC7, 0) ∧
    wC7.top_level_dirty = false :=
  ⟨rfl, rfl⟩

/-- Witness for C7 at the concrete scene `wC7` (instance creation, a
transform-setting call with a genuinely new matrix, and a composition
call). -/
theorem C7_witness :
    (∃ w', cr_instance_new ext0 (some wC7) 5 .cr_object_mesh = ((some w', 1), 1) ∧
       w'.top_level_dirty = true ∧ w'.top_level_bvh = wC7.top_level_bvh) ∧
    (∃ w', cr_instance_set_transform ext0 (some wC7) 0 mtxB = some (some w', 1) ∧
       w'.top_level_dirty = true ∧ w'.top_level_bvh = wC7.top_level_bvh) ∧
    (∃ w', cr_instance_transform ext0 (some wC7) 0 mtxB = some (some w', 1) ∧
       w'.top_level_dirty = true ∧ w'.top_level_bvh = wC7.top_level_bvh) :=
  ⟨(C7_mutations_set_dirty_flag ext0 wC7 ⟨⟨mtxA, mtxA⟩, 0, ⟨0⟩⟩ 0 5 .cr_object_mesh mtxB
      (by decide) rfl (by decide)).1,
   (C7_mutations_set_dirty_flag ext0 wC7 ⟨⟨mtxA, mtxA⟩, 0, ⟨0⟩⟩ 0 5 .cr_object_mesh mtxB
      (by decide) rfl (by decide)).2.1 (by decide),
   (C7_mutations_set_dirty_flag ext0 wC7 ⟨⟨mtxA, mtxA⟩, 0, ⟨0⟩⟩ 0 5 .cr_object_mesh mtxB
      (by decide) rfl (by decide)).2.2.2⟩

/-- Claim C8: `cr_renderer_set_num_pref` on the bounce parameter rejects any
value above 512 synchronously, leaving the stored bounce preference (and the
rest of the renderer) unchanged, and accepts and stores any value up to and
including 512. -/
theorem C8_bounce_cap (r : renderer) (num : Nat) :
    (512 < num →
      cr_renderer_set_num_pref (some r) .cr_renderer_bounces num = (some r, false)) ∧
    (num ≤ 512 →
      cr_renderer_set_num_pref (some r) .cr_renderer_bounces num =
        (some { r with prefs := { r.prefs with bounces := num } }, true)) := by
  constructor
  · intro h
    simp only [cr_renderer_set_num_pref]
    rw [if_pos h]
  · intro h
    simp only [cr_renderer_set_num_pref]
    rw [if_neg (by omega)]

/-- Witness for C8: 513 is rejected without a state change, 512 is stored. -/
theorem C8_witness :
    cr_renderer_set_num_pref (some rC8) .cr_renderer_bounces 513 = (some rC8, false) ∧
    cr_renderer_set_num_pref (some rC8) .cr_renderer_bounces 512 =
      (some { rC8 with prefs := { rC8.prefs with bounces := 512 } }, true) :=
  ⟨(C8_bounce_cap rC8 513).1 (by decide), (C8_bounce_cap rC8 512).2 (by decide)⟩

/-- Claim C9: toggling pause twice returns the renderer — in particular
every worker's pause and acknowledgement flags — exactly to its state before
the first call; moreover a single call flips only the pause flags of the
first `prefs.threads` (local-thread) workers: acknowledgement flags, sample
counters, workers beyond the thread count, the network client list and all
other renderer fields are untouched. -/
theorem C9_toggle_pause_involution (r : renderer)
    (hth : r.prefs.threads ≤ r.state.workers.length) :
    cr_renderer_toggle_pause (cr_renderer_toggle_pause (some r)) = some r ∧
    ∀ r1, cr_renderer_toggle_pause (some r) = some r1 →
      r1.prefs = r.prefs ∧ r1.scene = r.scene ∧ r1.state.s = r.state.s ∧
      r1.state.clients = r.state.clients ∧ r1.state.result_buf = r.state.result_buf ∧
      r1.state.current_set = r.state.current_set ∧
      r1.state.finishedPasses = r.state.finishedPasses ∧
      r1.state.callbacks = r.state.callbacks ∧
      (∀ j, (r1.state.workers.get? j).map worker.in_pause_loop =
        (r.state.workers.get? j).map worker.in_pause_loop) ∧
      (∀ j, (r1.state.workers.get? j).map worker.totalSamples =
        (r.state.workers.get? j).map worker.totalSamples) ∧
      (∀ j, r.prefs.threads ≤ j → r1.state.workers.get? j = r.state.workers.get? j) := by
  have hth1 : r.prefs.threads ≤ (flip_first r.prefs.threads r.state.workers).length := by
    rw [length_flip_first]
    exact hth
  constructor
  · simp only [cr_renderer_toggle_pause]
    rw [if_pos hth]
    dsimp only
    rw [if_pos hth1]
    rw [flip_first_flip_first]
  · intro r1 h1
    simp only [cr_renderer_toggle_pause] at h1
    rw [if_pos hth] at h1
    have h2 := Option.some.inj h1
    rw [← h2]
    exact ⟨rfl, rfl, rfl, rfl, rfl, rfl, rfl, rfl,
      fun j => flip_first_ipl r.prefs.threads r.state.workers j,
      fun j => flip_first_samples r.prefs.threads r.state.workers j,
      fun j hj => flip_first_get_ge r.prefs.threads r.state.workers j hj⟩

/-- Witness for C9 at a concrete two-worker renderer. -/
theorem C9_witness :
    cr_renderer_toggle_pause (cr_renderer_toggle_pause (some rC9)) = some rC9 ∧
    ∀ r1, cr_renderer_toggle_pause (some rC9) = some r1 →
      r1.prefs = rC9.prefs ∧ r1.scene = rC9.scene ∧ r1.state.s = rC9.state.s ∧
      r1.state.clients = rC9.state.clients ∧ r1.state.result_buf = rC9.state.result_buf ∧
      r1.state.current_set = rC9.state.current_set ∧
      r1.state.finishedPasses = rC9.state.finishedPasses ∧
      r1.state.callbacks = rC9.state.callbacks ∧
      (∀ j, (r1.state.workers.get? j).map worker.in_pause_loop =
        (rC9.state.workers.get? j).map worker.in_pause_loop) ∧
      (∀ j, (r1.state.workers.get? j).map worker.totalSamples =
        (rC9.state.workers.get? j).map worker.totalSamples) ∧
      (∀ j, rC9.prefs.threads ≤ j → r1.state.workers.get? j = rC9.state.workers.get? j) :=
  C9_toggle_pause_involution rC9 (by decide)

/-- Claim C10: every public operation that takes a renderer or scene handle —
`cr_destroy_renderer`, which asserts, excepted — given a NULL handle returns
its failure indicator (`false`, `-1`, `0`, `0.0`, the zero totals, or NULL)
or returns immediately, and, having no state to reach, reads and mutates
nothing, for all argument values and all behaviours of the external
functions. -/
theorem C10_null_handles_rejected (E : ExtFns) (acks : Nat → Bool) (t : Nat)
    (fn : Option CallbackFn) (ud : Option UserData) (p : cr_renderer_param) (num : Nat)
    (str : String) (radius : Flt) (name : Option String) (obj inst set_i mat c mi : Int)
    (ty : cr_object_type) (m : Mtx) (vbuf : cr_vertex_buf_param)
    (faces : Option (List cr_face)) (cp : cr_camera_param) (d : Dbl)
    (desc : Option ShaderDesc) (path : Option String) :
    cr_renderer_set_callback none t fn ud = (none, false) ∧
    cr_renderer_set_num_pref none p num = (none, false) ∧
    cr_renderer_set_str_pref none p str = (none, false) ∧
    cr_renderer_stop none = none ∧
    cr_renderer_toggle_pause none = none ∧
    cr_renderer_get_str_pref none p = none ∧
    cr_renderer_get_num_pref none p = 0 ∧
    cr_renderer_scene_get none = (none, false) ∧
    cr_renderer_render E none = none ∧
    cr_renderer_start_interactive E none = none ∧
    cr_renderer_restart_interactive E acks none = some (none, []) ∧
    cr_renderer_get_result none = none ∧
    cr_load_json E none path = (none, false) ∧
    cr_debug_dump_state none = none ∧
    cr_scene_set_background E none desc = (none, false) ∧
    cr_get_scene_totals none = { meshes := 0, spheres := 0, instances := 0, cameras := 0 } ∧
    cr_scene_add_sphere none radius = (none, -1) ∧
    cr_mesh_bind_vertex_buf none mi vbuf = some none ∧
    cr_mesh_bind_faces none mi faces = some none ∧
    cr_mesh_finalize none mi = some none ∧
    cr_scene_mesh_new none name = (none, -1) ∧
    cr_scene_get_mesh none name = -1 ∧
    cr_instance_new E none obj ty = ((none, 0), -1) ∧
    cr_instance_set_transform E none inst m = some (none, 0) ∧
    cr_instance_transform E none inst m = some (none, 0) ∧
    cr_instance_bind_material_set none inst set_i = some (none, false) ∧
    cr_camera_new none = (none, -1) ∧
    cr_camera_set_num_pref E none c cp d = some (none, false) ∧
    cr_camera_get_num_pref E none c cp = some d_zero ∧
    cr_camera_update E none c = some (none, false) ∧
    cr_camera_remove none c = (none, false) ∧
    cr_scene_new_material_set none = (none, -1) ∧
    cr_material_set_add E none set_i desc = some (none, -1) ∧
    cr_material_update E none set_i mat desc = some none := by
  refine ⟨rfl, rfl, rfl, rfl, rfl, rfl, rfl, rfl, rfl, rfl, rfl, rfl, ?_, rfl, rfl, rfl,
    rfl, rfl, ?_, rfl, rfl, ?_, rfl, rfl, rfl, rfl, rfl, ?_, ?_, ?_, rfl, rfl, rfl, rfl⟩
  · rfl
  · cases faces <;> rfl
  · cases name <;> rfl
  · simp [cr_camera_set_num_pref]
  · simp [cr_camera_get_num_pref]
  · simp [cr_camera_update]
